import Mathlib

/-!
Shallow embedding of the inventory reservation and order lifecycle engine of
the epharmacy backend, together with proofs checking the natural language
specification against the code.

The embedding follows the JavaScript source:
  * Product stock ledger: `ProductSchema` virtuals and methods in
    src/models/User.js (availableStock, reserveStock, releaseReservedStock,
    deductStock, and the pre-save clamp).
  * Cart (reservation session): `CartSchema` in src/models/HeroBanner.js
    (addItem, calculateTotals, extendExpiration, clearCart,
    cleanupExpiredCarts) and the cart controller in
    src/controllers/heroBannerController.js (addToCart).
  * Order lifecycle: `OrderSchema` in src/unnamed/part_005 (updateStatus,
    recordRevenue, releaseReservedStock, confirmSale, pre-save pricing
    recompute) and src/controllers/orderController.js (createOrder,
    updateOrderStatus).

Numbers held in JavaScript `Number` fields are modelled as `Int` for counters
and quantities and as `Rat` for money amounts.
-/

namespace Pharma

/-- Error taxonomy of the core, named after the specification section 7.
Each constructor corresponds to a thrown error or a 400 response in the
source: `InsufficientStock` is the thrown message "Insufficient stock
available" of `reserveStock` and the insufficient stock responses of the
controllers, `ReservationUnderrun` is the thrown message "Insufficient
reserved stock" of `deductStock`, and so on. -/
inductive ApiError where
  | InsufficientStock
  | ReservationUnderrun
  | InvalidTransition
  | PrescriptionRequired
  | SessionExpired
  | SessionEmpty
  | ProductUnavailable
  | QuantityOutOfRange
  | UnitSaleNotAllowed
  deriving DecidableEq, Repr

/-- Product type, from the `productType` enum of `ProductSchema`; only
tablet and capsule matter to the unit conversion, the rest is collapsed. -/
inductive ProductType where
  | tablet
  | capsule
  | syrup
  | other
  deriving DecidableEq, Repr

/-- Product status enum of `ProductSchema`. -/
inductive ProductStatus where
  | active
  | inactive
  | discontinued
  deriving DecidableEq, Repr

/-- Medicine type of `ProductSchema`; `prescription` corresponds to the
string value "Prescription" tested by the order controller. -/
inductive MedicineType where
  | prescription
  | otc
  deriving DecidableEq, Repr

/-- Product stock record, projecting the fields of `ProductSchema`
(src/models/User.js) used by the reservation engine. -/
structure Product where
  stock : Int
  reservedStock : Int
  productType : ProductType
  unitsPerStrip : Int
  allowUnitSale : Bool
  status : ProductStatus
  medicineType : MedicineType
  minOrderQuantity : Int
  maxOrderQuantity : Option Int
  deriving DecidableEq, Repr

/-- Tablet or capsule test, the repeated
`product.productType` membership test for tablet and capsule. -/
def isTabletOrCapsule (p : Product) : Bool :=
  p.productType = ProductType.tablet ∨ p.productType = ProductType.capsule

/-- Ceiling division as computed by `Math.ceil(a / b)` on integer inputs
with positive divisor. -/
def ceilDiv (a b : Int) : Int := -((-a).ediv b)

/-- JavaScript falsy-or on numbers: `x || d` yields `d` when `x` is `0`. -/
def jsOr (x d : Int) : Int := if x = 0 then d else x

/-- Virtual `availableStock` of `ProductSchema`:
`Math.max(0, this.stock - this.reservedStock)`. -/
def availableStock (p : Product) : Int := max 0 (p.stock - p.reservedStock)

/-- Pre-save middleware of `ProductSchema`: if `reservedStock` exceeds
`stock` it is clamped down to `stock`. -/
def productPreSave (p : Product) : Product :=
  if p.reservedStock > p.stock then { p with reservedStock := p.stock } else p

/-- Method `reserveStock` of `ProductSchema`: throws InsufficientStock when
`availableStock < quantity`, otherwise increments `reservedStock` and saves
(the save applies the pre-save clamp). -/
def reserveStock (p : Product) (quantity : Int) : Except ApiError Product :=
  if availableStock p < quantity then .error .InsufficientStock
  else .ok (productPreSave { p with reservedStock := p.reservedStock + quantity })

/-- Method `releaseReservedStock` of `ProductSchema`:
`reservedStock = Math.max(0, reservedStock - quantity)`, then save. -/
def releaseReservedStock (p : Product) (quantity : Int) : Product :=
  productPreSave { p with reservedStock := max 0 (p.reservedStock - quantity) }

/-- Method `deductStock` of `ProductSchema`: throws ReservationUnderrun when
`reservedStock < quantity`, otherwise decrements both `stock` and
`reservedStock` and saves. -/
def deductStock (p : Product) (quantity : Int) : Except ApiError Product :=
  if p.reservedStock < quantity then .error .ReservationUnderrun
  else .ok (productPreSave
    { p with stock := p.stock - quantity, reservedStock := p.reservedStock - quantity })

/-- Stock ledger invariant of specification section 8:
`0 ≤ reservedStock ≤ stock`. -/
def StockInv (p : Product) : Prop :=
  0 ≤ p.reservedStock ∧ p.reservedStock ≤ p.stock

instance (p : Product) : Decidable (StockInv p) := by
  unfold StockInv; infer_instance

/-- One ledger mutation with a nonnegative amount, as issued by the callers
of the three ledger methods (all call sites pass quantities or ceiling
divisions of quantities, which are nonnegative). -/
inductive LedgerOp where
  | reserve (amount : Nat)
  | release (amount : Nat)
  | deduct (amount : Nat)
  deriving DecidableEq, Repr

/-- Apply one ledger operation; a thrown error leaves the document as it
was (the methods throw before mutating). -/
def applyOp (p : Product) : LedgerOp → Product
  | .reserve a =>
    match reserveStock p (a : Int) with
    | .ok p2 => p2
    | .error _ => p
  | .release a => releaseReservedStock p (a : Int)
  | .deduct a =>
    match deductStock p (a : Int) with
    | .ok p2 => p2
    | .error _ => p

/-- Apply a sequence of ledger operations in order. -/
def applyOps (ops : List LedgerOp) (p : Product) : Product :=
  ops.foldl applyOp p

/-- Sample product used by witnesses: a plain package-sold product with
stock 10 and nothing reserved (scenario A of the specification). -/
def sampleProductA : Product :=
  { stock := 10, reservedStock := 0, productType := .syrup, unitsPerStrip := 1,
    allowUnitSale := false, status := .active, medicineType := .otc,
    minOrderQuantity := 1, maxOrderQuantity := none }

/-- Product collection keyed by product id, standing for the products in
the database. -/
abbrev Ledger := List (Nat × Product)

/-- Lookup of a product by id (`Product.findById`). -/
def findProduct (l : Ledger) (pid : Nat) : Option Product :=
  match l with
  | [] => none
  | (k, p) :: rest => if k = pid then some p else findProduct rest pid

/-- Write back a saved product record under its id. -/
def setProduct (l : Ledger) (pid : Nat) (p : Product) : Ledger :=
  match l with
  | [] => []
  | (k, q) :: rest =>
    if k = pid then (k, p) :: setProduct rest pid p else (k, q) :: setProduct rest pid p

/-- Purchase granularity of a line (`purchaseType` enum). -/
inductive PurchaseType where
  | unit
  | package
  deriving DecidableEq, Repr

/-- Order line, projecting `OrderItemSchema` of the order model. -/
structure OrderItem where
  productId : Nat
  quantity : Int
  purchaseType : PurchaseType
  pricePerItem : Rat
  totalPrice : Rat
  prescriptionRequired : Bool
  deriving DecidableEq, Repr

/-- Pricing block of `OrderSchema`. -/
structure Pricing where
  subtotal : Rat
  deliveryFee : Rat
  tax : Rat
  discount : Rat
  total : Rat
  deriving DecidableEq, Repr

/-- Revenue block of `OrderSchema` (`recordedAt` is a date and is not
modelled). -/
structure Revenue where
  recorded : Bool
  grossRevenue : Rat
  netRevenue : Rat
  profit : Rat
  deriving DecidableEq, Repr

/-- Order status enum of `OrderSchema`. -/
inductive OrderStatus where
  | pending
  | prescription_verified
  | confirmed
  | packed
  | out_for_delivery
  | delivered
  | cancelled
  | returned
  deriving DecidableEq, Repr

/-- Payment status enum of `OrderSchema.payment.status`. -/
inductive PaymentStatus where
  | pending
  | paid
  | failed
  | refunded
  deriving DecidableEq, Repr

/-- One entry of the `statusHistory` audit trail (the timestamp is a date
and is not modelled). -/
structure HistoryEntry where
  status : OrderStatus
  changedBy : Nat
  notes : String
  deriving DecidableEq, Repr

/-- Order record, projecting the fields of `OrderSchema` used by the
lifecycle engine. -/
structure Order where
  items : List OrderItem
  pricing : Pricing
  status : OrderStatus
  paymentStatus : PaymentStatus
  revenue : Revenue
  statusHistory : List HistoryEntry
  deriving DecidableEq, Repr

/-- Pre-save middleware of `OrderSchema`: recompute `pricing.subtotal` as
the sum of the line totals and `pricing.total` as
`subtotal + deliveryFee + tax - discount`. -/
def orderPreSave (o : Order) : Order :=
  let subtotal := (o.items.map OrderItem.totalPrice).sum
  { o with pricing := { o.pricing with
      subtotal := subtotal,
      total := subtotal + o.pricing.deliveryFee + o.pricing.tax - o.pricing.discount } }

/-- Base units a line occupies, as computed inside the order model methods
`releaseReservedStock` and `confirmSale`:
`Math.ceil(item.quantity / (Number(product.unitsPerStrip) || 1))` for unit
purchases of tablets or capsules, the raw quantity otherwise. -/
def orderItemBaseUnits (p : Product) (it : OrderItem) : Int :=
  if it.purchaseType = PurchaseType.unit ∧ isTabletOrCapsule p then
    ceilDiv it.quantity (jsOr p.unitsPerStrip 1)
  else it.quantity

/-- Method `releaseReservedStock` of `OrderSchema`: for every line whose
product still exists, release the computed base units back to the ledger.
It runs unconditionally whenever an order transitions to cancelled. -/
def orderReleaseReservedStock (items : List OrderItem) (l : Ledger) : Ledger :=
  items.foldl (fun acc it =>
    match findProduct acc it.productId with
    | none => acc
    | some p => setProduct acc it.productId (releaseReservedStock p (orderItemBaseUnits p it))) l

/-- Method `confirmSale` of `OrderSchema`: deduct the base units of each line.
A `deductStock` throw stops the loop; deductions already saved for earlier
lines are kept, and the error propagates. -/
def confirmSale (items : List OrderItem) (l : Ledger) : Ledger × Option ApiError :=
  match items with
  | [] => (l, none)
  | it :: rest =>
    match findProduct l it.productId with
    | none => confirmSale rest l
    | some p =>
      match deductStock p (orderItemBaseUnits p it) with
      | .ok p2 => confirmSale rest (setProduct l it.productId p2)
      | .error e => (l, some e)

/-- Method `recordRevenue` of `OrderSchema`: when the order is delivered
and revenue was not recorded yet, set `grossRevenue = pricing.total`,
`netRevenue = pricing.total - pricing.deliveryFee`,
`profit = netRevenue - sum(item.totalPrice * 0.7)` and mark it recorded,
then save; otherwise do nothing. -/
def recordRevenue (o : Order) : Order :=
  if o.status = OrderStatus.delivered ∧ o.revenue.recorded = false then
    let gross := o.pricing.total
    let net := o.pricing.total - o.pricing.deliveryFee
    let totalCost := (o.items.map (fun it => it.totalPrice * (7 / 10 : Rat))).sum
    orderPreSave { o with revenue :=
      { recorded := true, grossRevenue := gross, netRevenue := net,
        profit := net - totalCost } }
  else o

/-- Method `updateStatus` of `OrderSchema`: set the new status, append the
audit entry, run the per-status side effects (record revenue on delivered,
release reserved stock on cancelled) and save. No transition validation is
performed anywhere in this method. -/
def updateStatus (o : Order) (l : Ledger) (newStatus : OrderStatus)
    (changedBy : Nat) (notes : String) : Order × Ledger :=
  let o1 := { o with status := newStatus,
                     statusHistory := o.statusHistory ++ [⟨newStatus, changedBy, notes⟩] }
  match newStatus with
  | OrderStatus.delivered =>
    let o2 := { o1 with paymentStatus := PaymentStatus.paid }
    (orderPreSave (recordRevenue o2), l)
  | OrderStatus.cancelled =>
    (orderPreSave o1, orderReleaseReservedStock o1.items l)
  | _ => (orderPreSave o1, l)

/-- Controller `updateOrderStatus` of src/controllers/orderController.js:
update the status with audit trail, and if the target status is confirmed
run `confirmSale` afterwards. A `confirmSale` failure surfaces as an error
after the status update was already persisted. -/
def updateOrderStatus (o : Order) (l : Ledger) (newStatus : OrderStatus)
    (userId : Nat) (notes : String) : Order × Ledger × Option ApiError :=
  let r := updateStatus o l newStatus userId notes
  if newStatus = OrderStatus.confirmed then
    let c := confirmSale r.1.items r.2
    (r.1, c.1, c.2)
  else
    (r.1, r.2, none)

/-- Empty revenue block of a fresh order. -/
def freshRevenue : Revenue :=
  { recorded := false, grossRevenue := 0, netRevenue := 0, profit := 0 }

/-- Sample pending order with no items, used to exhibit the missing
transition validation. -/
def samplePendingOrder : Order :=
  { items := [], pricing := { subtotal := 0, deliveryFee := 0, tax := 0, discount := 0, total := 0 },
    status := OrderStatus.pending, paymentStatus := PaymentStatus.pending,
    revenue := freshRevenue, statusHistory := [] }

/-- Sample order for scenario C: subtotal 200, delivery fee 50, total 250,
one line with total 200, not yet delivered. -/
def sampleOrderC : Order :=
  { items := [{ productId := 1, quantity := 2, purchaseType := PurchaseType.package,
                pricePerItem := 100, totalPrice := 200, prescriptionRequired := false }],
    pricing := { subtotal := 200, deliveryFee := 50, tax := 0, discount := 0, total := 250 },
    status := OrderStatus.out_for_delivery, paymentStatus := PaymentStatus.pending,
    revenue := freshRevenue,
    statusHistory := [] }

/-- Sample product for the cancellation claim: stock 10 with 5 units
reserved. -/
def sampleProductC5 : Product :=
  { stock := 10, reservedStock := 5, productType := .syrup, unitsPerStrip := 1,
    allowUnitSale := false, status := .active, medicineType := .otc,
    minOrderQuantity := 1, maxOrderQuantity := none }

/-- Sample order for the cancellation claim: already confirmed (stock was
deducted by the earlier confirmed transition), one package line of
quantity 3 on product 1. -/
def sampleOrderC5 : Order :=
  { items := [{ productId := 1, quantity := 3, purchaseType := PurchaseType.package,
                pricePerItem := 1, totalPrice := 3, prescriptionRequired := false }],
    pricing := { subtotal := 3, deliveryFee := 50, tax := 0, discount := 0, total := 53 },
    status := OrderStatus.confirmed, paymentStatus := PaymentStatus.pending,
    revenue := freshRevenue,
    statusHistory := [⟨OrderStatus.pending, 1, ""⟩, ⟨OrderStatus.confirmed, 1, ""⟩] }

/-- Result of a successful deduction: both counters drop by the amount. -/
def deductedProduct (p : Product) (a : Int) : Product :=
  { p with stock := p.stock - a, reservedStock := p.reservedStock - a }

/-- Sample line for C4: a package line of quantity 3 on product 1. -/
def sampleItemC4 : OrderItem :=
  { productId := 1, quantity := 3, purchaseType := PurchaseType.package,
    pricePerItem := 1, totalPrice := 3, prescriptionRequired := false }

/-- Sample order for C4: one package line of quantity 3 on product 1,
still pending. -/
def sampleOrderC4 : Order :=
  { items := [sampleItemC4],
    pricing := { subtotal := 3, deliveryFee := 50, tax := 0, discount := 0, total := 53 },
    status := OrderStatus.pending, paymentStatus := PaymentStatus.pending,
    revenue := freshRevenue, statusHistory := [⟨OrderStatus.pending, 1, ""⟩] }

/-- Cart status enum of `CartSchema`. -/
inductive CartStatus where
  | active
  | expired
  | converted_to_order
  deriving DecidableEq, Repr

/-- Cart line, projecting `CartItemSchema`; `reservedStock` caches the
base units this line holds in the ledger. -/
structure CartItem where
  productId : Nat
  quantity : Int
  purchaseType : PurchaseType
  pricePerItem : Rat
  totalPrice : Rat
  reservedStock : Int
  deriving DecidableEq, Repr

/-- Cart record, projecting `CartSchema`; timestamps are integer epoch
milliseconds. -/
structure Cart where
  items : List CartItem
  subtotal : Rat
  totalItems : Int
  expiresAt : Int
  status : CartStatus
  deriving DecidableEq, Repr

/-- Session time to live: 30 minutes in milliseconds. -/
def SESSION_TTL_MS : Int := 30 * 60 * 1000

/-- Method `calculateTotals` of `CartSchema`. -/
def cartCalculateTotals (c : Cart) : Cart :=
  { c with subtotal := (c.items.map CartItem.totalPrice).sum,
           totalItems := (c.items.map CartItem.quantity).sum }

/-- Method `extendExpiration` of `CartSchema`. -/
def cartExtendExpiration (now : Int) (c : Cart) : Cart :=
  { c with expiresAt := now + SESSION_TTL_MS }

/-- Virtual `isExpired` of `CartSchema`: `expiresAt < now`. -/
def cartIsExpired (now : Int) (c : Cart) : Bool := c.expiresAt < now

/-- Base-package units needed for a purchase, as computed both by the cart
controller helper `calculatePricing` and by the cart model methods
`addItem` and `updateItemQuantity`:
`Math.ceil(quantity / (product.unitsPerStrip || 10))` for unit purchases
of tablets or capsules, the raw quantity otherwise. -/
def cartStockNeeded (p : Product) (pt : PurchaseType) (quantity : Int) : Int :=
  if pt = PurchaseType.unit ∧ isTabletOrCapsule p then
    ceilDiv quantity (jsOr p.unitsPerStrip 10)
  else quantity

/-- Method `addItem` of `CartSchema`: merge into an existing line for the
same product and purchase type (adding the quantity and replacing the
cached hold with the new total requirement) or push a new line, then
recompute the totals and refresh the expiry. No ledger call happens here;
the caller reserved the stock beforehand. -/
def cartAddItem (now : Int) (c : Cart) (p : Product) (pid : Nat) (quantity : Int)
    (pt : PurchaseType) (pricePerItem : Rat) : Cart :=
  let stockNeeded := cartStockNeeded p pt quantity
  let c2 :=
    match c.items.findIdx? (fun it => decide (it.productId = pid ∧ it.purchaseType = pt)) with
    | some i =>
      match c.items[i]? with
      | some old =>
        let newQ := old.quantity + quantity
        let newNeed := cartStockNeeded p pt newQ
        let merged := { old with
          quantity := newQ, totalPrice := (newQ : Rat) * pricePerItem,
          reservedStock := newNeed }
        { c with items := c.items.set i merged }
      | none => c
    | none =>
      { c with items := c.items ++
          [{ productId := pid, quantity := quantity, purchaseType := pt,
             pricePerItem := pricePerItem, totalPrice := (quantity : Rat) * pricePerItem,
             reservedStock := stockNeeded }] }
  cartExtendExpiration now (cartCalculateTotals c2)

/-- JavaScript guard `product.maxOrderQuantity && quantity > maxOrderQuantity`:
a null or zero maximum is falsy and disables the check. -/
def maxQtyExceeded (mo : Option Int) (q : Int) : Prop :=
  match mo with
  | some m => m ≠ 0 ∧ m < q
  | none => False

instance (mo : Option Int) (q : Int) : Decidable (maxQtyExceeded mo q) := by
  cases mo <;> · unfold maxQtyExceeded; infer_instance

/-- Controller `addToCart` of src/controllers/heroBannerController.js:
validate the quantity, the product existence and status, the min and max
order quantities and the unit-sale eligibility; check raw availability
(`product.stock - product.reservedStock`); reserve the needed base units
through the ledger; then merge the line into the cart. The `pricePerItem`
argument stands for the price computed by `calculatePricing`; it does not
influence the stock accounting. -/
def addToCart (now : Int) (c : Cart) (l : Ledger) (pid : Nat) (quantity : Int)
    (pt : PurchaseType) (pricePerItem : Rat) : Except ApiError (Cart × Ledger) :=
  if quantity < 1 then .error .QuantityOutOfRange
  else
    match findProduct l pid with
    | none => .error .ProductUnavailable
    | some p =>
      if p.status ≠ ProductStatus.active then .error .ProductUnavailable
      else if quantity < p.minOrderQuantity then .error .QuantityOutOfRange
      else if maxQtyExceeded p.maxOrderQuantity quantity then .error .QuantityOutOfRange
      else if pt = PurchaseType.unit ∧ isTabletOrCapsule p = false then
        .error .UnitSaleNotAllowed
      else if pt = PurchaseType.unit ∧ p.allowUnitSale = false then
        .error .UnitSaleNotAllowed
      else if p.stock - p.reservedStock < cartStockNeeded p pt quantity then
        .error .InsufficientStock
      else
        match reserveStock p (cartStockNeeded p pt quantity) with
        | .error e => .error e
        | .ok p2 => .ok (cartAddItem now c p2 pid quantity pt pricePerItem, setProduct l pid p2)

/-- Method `clearCart` of `CartSchema`: empty the items and recompute the
totals; the status is not changed and no stock is released here. -/
def clearCart (c : Cart) : Cart :=
  cartCalculateTotals { c with items := [] }

/-- Base units needed for a cart line as recomputed inside the controller
`createOrder`: `Math.ceil(quantity / product.unitsPerStrip)` for unit
purchases of tablets or capsules (no fallback on `unitsPerStrip` here),
the raw quantity otherwise. -/
def orderLineStockNeeded (p : Product) (ci : CartItem) : Int :=
  if ci.purchaseType = PurchaseType.unit ∧ isTabletOrCapsule p then
    ceilDiv ci.quantity p.unitsPerStrip
  else ci.quantity

/-- Order line built by `createOrder` from a cart line and its product
snapshot; the prescription flag comes from the product. -/
def cartLineToOrderItem (p : Product) (ci : CartItem) : OrderItem :=
  { productId := ci.productId, quantity := ci.quantity, purchaseType := ci.purchaseType,
    pricePerItem := ci.pricePerItem, totalPrice := ci.totalPrice,
    prescriptionRequired := p.medicineType = MedicineType.prescription }

/-- Per-line validation loop of the controller `createOrder`: each cart
product of each line must exist and be active, and the recomputed base units
must not exceed the virtual `availableStock`. The cached `reservedStock`
of the cart line is never consulted. -/
def validateLines (l : Ledger) : List CartItem → Except ApiError (List OrderItem)
  | [] => .ok []
  | ci :: rest =>
    match findProduct l ci.productId with
    | none => .error .ProductUnavailable
    | some p =>
      if p.status ≠ ProductStatus.active then .error .ProductUnavailable
      else if availableStock p < orderLineStockNeeded p ci then .error .InsufficientStock
      else
        match validateLines l rest with
        | .error e => .error e
        | .ok items => .ok (cartLineToOrderItem p ci :: items)

/-- Controller `createOrder` of src/controllers/orderController.js: reject
an empty or expired cart, validate every line, enforce the prescription
requirement (`hasPrescriptions` stands for a nonempty prescriptions
payload), price the order (tax and discount are zero at creation,
`total = subtotal + deliveryFee`), build the pending order and save it; on
success the cart is cleared through `clearCart` and the ledger is left
untouched (the reservations made by the cart are kept, not re-reserved and
not released). -/
def createOrder (now : Int) (c : Cart) (l : Ledger) (hasPrescriptions : Bool)
    (deliveryFee : Rat) : Except ApiError (Order × Cart × Ledger) :=
  if c.items.isEmpty then .error .SessionEmpty
  else if cartIsExpired now c then .error .SessionExpired
  else
    match validateLines l c.items with
    | .error e => .error e
    | .ok items =>
      if items.any OrderItem.prescriptionRequired && !hasPrescriptions then
        .error .PrescriptionRequired
      else
        let subtotal := (items.map OrderItem.totalPrice).sum
        let order : Order :=
          { items := items,
            pricing := { subtotal := subtotal, deliveryFee := deliveryFee, tax := 0,
                         discount := 0, total := subtotal + deliveryFee },
            status := OrderStatus.pending, paymentStatus := PaymentStatus.pending,
            revenue := freshRevenue, statusHistory := [] }
        .ok (orderPreSave order, clearCart c, l)

/-- Sweep selection of `cleanupExpiredCarts`: status active and already
past the expiry. -/
def sweepSelected (now : Int) (c : Cart) : Bool :=
  decide (c.status = CartStatus.active ∧ c.expiresAt < now)

/-- Inner loop of `cleanupExpiredCarts`: release every line whose product
exists and whose cached hold is positive. -/
def releaseCartItems (items : List CartItem) (l : Ledger) : Ledger :=
  items.foldl (fun acc it =>
    match findProduct acc it.productId with
    | none => acc
    | some p =>
      if (0 : Int) < it.reservedStock
      then setProduct acc it.productId (releaseReservedStock p it.reservedStock)
      else acc) l

/-- Static `cleanupExpiredCarts` of `CartSchema`: for every active cart
past its expiry, release the cached holds of its lines and flip the cart
to expired; other carts are untouched; the number of swept carts is
returned. -/
def cleanupExpiredCarts (now : Int) : List Cart → Ledger → List Cart × Ledger × Nat
  | [], l => ([], l, 0)
  | c :: cs, l =>
    if sweepSelected now c then
      let l2 := releaseCartItems c.items l
      let r := cleanupExpiredCarts now cs l2
      ({ c with status := CartStatus.expired } :: r.1, r.2.1, r.2.2 + 1)
    else
      let r := cleanupExpiredCarts now cs l
      (c :: r.1, r.2.1, r.2.2)

/-- Total hold released for one product id by a run over the given lines:
the sum of the positive cached holds of the lines referencing it. -/
def heldSum (items : List CartItem) (pid : Nat) : Int :=
  ((items.filter (fun it => decide (it.productId = pid ∧ 0 < it.reservedStock))).map
    CartItem.reservedStock).sum

/-- Lines of the carts a sweep at the given instant processes. -/
def selectedItems (now : Int) (carts : List Cart) : List CartItem :=
  ((carts.filter (sweepSelected now)).map Cart.items).flatten

/-- Product for the C7 counterexample: every unit of its stock 10 is
reserved (held by the session itself). -/
def sampleProductC7 : Product :=
  { stock := 10, reservedStock := 10, productType := .syrup, unitsPerStrip := 1,
    allowUnitSale := false, status := .active, medicineType := .otc,
    minOrderQuantity := 1, maxOrderQuantity := none }

/-- Cart line of the C7 counterexample: the session holds exactly the 10
base units its quantity requires. -/
def sampleLineC7 : CartItem :=
  { productId := 1, quantity := 10, purchaseType := PurchaseType.package,
    pricePerItem := 1, totalPrice := 10, reservedStock := 10 }

/-- Session of the C7 counterexample: non-expired and fully covered. -/
def sampleCartC7 : Cart :=
  { items := [sampleLineC7], subtotal := 10, totalItems := 10, expiresAt := 100,
    status := CartStatus.active }

/-- Product with ample free stock, for the mismatch side of C7 and for
successful checkouts. -/
def sampleProductC7b : Product :=
  { stock := 20, reservedStock := 0, productType := .syrup, unitsPerStrip := 1,
    allowUnitSale := false, status := .active, medicineType := .otc,
    minOrderQuantity := 1, maxOrderQuantity := none }

/-- Cart line whose cached hold (999) disagrees wildly with its
requirement (5). -/
def sampleLineC7b : CartItem :=
  { productId := 2, quantity := 5, purchaseType := PurchaseType.package,
    pricePerItem := 1, totalPrice := 5, reservedStock := 999 }

/-- Session carrying the mismatched line. -/
def sampleCartC7b : Cart :=
  { items := [sampleLineC7b], subtotal := 5, totalItems := 5, expiresAt := 100,
    status := CartStatus.active }

/-- Order produced by the successful checkout of the mismatch sample. -/
def sampleOrderFromC7b : Order :=
  orderPreSave
    { items := [cartLineToOrderItem sampleProductC7b sampleLineC7b],
      pricing := { subtotal := ([cartLineToOrderItem sampleProductC7b sampleLineC7b].map
                     OrderItem.totalPrice).sum,
                   deliveryFee := 50, tax := 0, discount := 0,
                   total := ([cartLineToOrderItem sampleProductC7b sampleLineC7b].map
                     OrderItem.totalPrice).sum + 50 },
      status := OrderStatus.pending, paymentStatus := PaymentStatus.pending,
      revenue := freshRevenue, statusHistory := [] }

/-- Cart line of scenario B: a hold of 5 base units on product 1. -/
def sampleLineB : CartItem :=
  { productId := 1, quantity := 5, purchaseType := PurchaseType.package,
    pricePerItem := 1, totalPrice := 5, reservedStock := 5 }

/-- Session of scenario B: active but already past its expiry instant. -/
def sampleCartB : Cart :=
  { items := [sampleLineB], subtotal := 5, totalItems := 5, expiresAt := 10,
    status := CartStatus.active }

/-- Tablet product for the C3 counterexample: 10 tablets per strip, stock
10 strips of which 1 is reserved (held by the existing cart line). -/
def sampleProductC3 : Product :=
  { stock := 10, reservedStock := 1, productType := .tablet, unitsPerStrip := 10,
    allowUnitSale := true, status := .active, medicineType := .otc,
    minOrderQuantity := 1, maxOrderQuantity := none }

/-- Existing cart line of the C3 counterexample: 5 tablets, holding 1
strip (ceil(5/10)). -/
def sampleLineC3 : CartItem :=
  { productId := 1, quantity := 5, purchaseType := PurchaseType.unit,
    pricePerItem := 1, totalPrice := 5, reservedStock := 1 }

/-- Session of the C3 counterexample. -/
def sampleCartC3 : Cart :=
  { items := [sampleLineC3], subtotal := 5, totalItems := 5, expiresAt := 100,
    status := CartStatus.active }

/-- Base units the counterexample addition reserves in the ledger. -/
def addAmountC3 : Int := cartStockNeeded sampleProductC3 PurchaseType.unit 5

/-- Ledger record of product 1 after the counterexample merge. -/
def sampleProductC3r : Product :=
  { sampleProductC3 with reservedStock := sampleProductC3.reservedStock + addAmountC3 }

theorem availableStock_of_inv (p : Product) (h : StockInv p) :
    availableStock p = p.stock - p.reservedStock := by
  obtain ⟨h0, h1⟩ := h
  unfold availableStock
  exact max_eq_right (by omega)

theorem stockInv_productPreSave (q : Product)
    (h0 : 0 ≤ q.reservedStock) (hs : 0 ≤ q.stock) :
    StockInv (productPreSave q) := by
  unfold productPreSave
  split
  · exact ⟨hs, le_refl _⟩
  · refine ⟨h0, ?_⟩
    omega

/-- C1: the reserve operation succeeds exactly when `stock - reservedStock`
covers a positive requested amount; on success `reservedStock` grows by the
amount and `stock` is untouched, on failure the error is InsufficientStock
and the record is unchanged. -/
theorem reserveStock_spec (p : Product) (a : Int) (ha : 0 < a) :
    (a ≤ p.stock - p.reservedStock →
      reserveStock p a = .ok { p with reservedStock := p.reservedStock + a }) ∧
    (p.stock - p.reservedStock < a →
      reserveStock p a = .error .InsufficientStock) := by
  constructor
  · intro h
    unfold reserveStock availableStock productPreSave
    have h1 : ¬ (max 0 (p.stock - p.reservedStock) < a) := by omega
    rw [if_neg h1]
    have h2 : ¬ (p.reservedStock + a > p.stock) := by omega
    simp [h2]
  · intro h
    unfold reserveStock availableStock
    have h1 : max 0 (p.stock - p.reservedStock) < a := by omega
    rw [if_pos h1]

/-- Witness for C1, scenario A of the specification: stock 10, nothing
reserved, a reservation of 10 succeeds and fills the reserve; afterwards a
reservation of 1 fails with InsufficientStock. -/
theorem reserveStock_spec_witness :
    (0 : Int) < 10 ∧
    reserveStock sampleProductA 10 =
      .ok { sampleProductA with reservedStock := 10 } ∧
    reserveStock { sampleProductA with reservedStock := 10 } 1 =
      .error .InsufficientStock := by
  refine ⟨by decide, ?_, ?_⟩
  · exact (reserveStock_spec sampleProductA 10 (by decide)).1 (by decide)
  · exact (reserveStock_spec { sampleProductA with reservedStock := 10 } 1
      (by decide)).2 (by decide)

theorem stockInv_applyOp (p : Product) (op : LedgerOp) (h : StockInv p) :
    StockInv (applyOp p op) := by
  obtain ⟨h0, h1⟩ := h
  cases op with
  | reserve a =>
    simp only [applyOp]
    split
    · next p2 heq =>
      unfold reserveStock at heq
      split at heq
      · cases heq
      · next hc =>
        injection heq with h2
        subst h2
        apply stockInv_productPreSave
        · show (0 : Int) ≤ p.reservedStock + (a : Int)
          omega
        · show (0 : Int) ≤ p.stock
          omega
    · exact ⟨h0, h1⟩
  | release a =>
    simp only [applyOp]
    unfold releaseReservedStock
    apply stockInv_productPreSave
    · show (0 : Int) ≤ max 0 (p.reservedStock - (a : Int))
      exact le_max_left 0 _
    · show (0 : Int) ≤ p.stock
      omega
  | deduct a =>
    simp only [applyOp]
    split
    · next p2 heq =>
      unfold deductStock at heq
      split at heq
      · cases heq
      · next hc =>
        injection heq with h2
        subst h2
        apply stockInv_productPreSave
        · show (0 : Int) ≤ p.reservedStock - (a : Int)
          omega
        · show (0 : Int) ≤ p.stock - (a : Int)
          omega
    · exact ⟨h0, h1⟩

/-- C10: the invariant `0 ≤ reservedStock ≤ stock` is preserved by every
sequence of reserve, release and deduct operations (each followed by the
pre-save clamp of persistence), given it held at the start. -/
theorem stockInv_applyOps (ops : List LedgerOp) (p : Product) (h : StockInv p) :
    StockInv (applyOps ops p) := by
  induction ops generalizing p with
  | nil => exact h
  | cons op rest ih =>
    have step := stockInv_applyOp p op h
    simpa [applyOps, List.foldl_cons] using ih (applyOp p op) step

/-- Witness for C10: reserving 5 and then releasing 5 twice on a product
with stock 10 keeps the invariant (double release does not drive
`reservedStock` negative). -/
theorem stockInv_applyOps_witness :
    StockInv sampleProductA ∧
    StockInv (applyOps
      [LedgerOp.reserve 5, LedgerOp.release 5, LedgerOp.release 5] sampleProductA) := by
  refine ⟨by decide, ?_⟩
  exact stockInv_applyOps [LedgerOp.reserve 5, LedgerOp.release 5, LedgerOp.release 5]
    sampleProductA (by decide)

theorem findProduct_setProduct_self (l : Ledger) (pid : Nat) (p q : Product)
    (h : findProduct l pid = some q) :
    findProduct (setProduct l pid p) pid = some p := by
  induction l with
  | nil => cases h
  | cons e rest ih =>
    obtain ⟨k, r⟩ := e
    by_cases hk : k = pid
    · simp [findProduct, setProduct, hk]
    · simp only [findProduct, setProduct, hk, if_false, if_neg hk] at h ⊢
      exact ih h

theorem findProduct_setProduct_ne (l : Ledger) (pid pid2 : Nat) (p : Product)
    (h : pid2 ≠ pid) :
    findProduct (setProduct l pid p) pid2 = findProduct l pid2 := by
  induction l with
  | nil => rfl
  | cons e rest ih =>
    obtain ⟨k, r⟩ := e
    by_cases hk : k = pid
    · subst hk
      simp only [setProduct, if_pos rfl, findProduct]
      rw [if_neg (by omega)]
      rw [if_neg (by omega)]
      exact ih
    · simp only [setProduct, if_neg hk, findProduct]
      by_cases hk2 : k = pid2
      · simp [hk2]
      · rw [if_neg hk2, if_neg hk2]
        exact ih

theorem orderPreSave_status (o : Order) : (orderPreSave o).status = o.status := rfl

theorem orderPreSave_statusHistory (o : Order) :
    (orderPreSave o).statusHistory = o.statusHistory := rfl

theorem orderPreSave_revenue (o : Order) : (orderPreSave o).revenue = o.revenue := rfl

theorem orderPreSave_items (o : Order) : (orderPreSave o).items = o.items := rfl

theorem recordRevenue_status (o : Order) : (recordRevenue o).status = o.status := by
  unfold recordRevenue
  split <;> rfl

theorem recordRevenue_statusHistory (o : Order) :
    (recordRevenue o).statusHistory = o.statusHistory := by
  unfold recordRevenue
  split <;> rfl

/-- C2 amended: the status transition operation performs no validation at
all: for every order and every requested target status it sets the status
to the target and appends the audit entry; no request is ever rejected. -/
theorem updateStatus_accepts_any (o : Order) (l : Ledger) (s : OrderStatus)
    (u : Nat) (n : String) :
    (updateStatus o l s u n).1.status = s ∧
    (updateStatus o l s u n).1.statusHistory = o.statusHistory ++ [⟨s, u, n⟩] := by
  cases s <;>
    exact ⟨by simp [updateStatus, orderPreSave_status, recordRevenue_status],
           by simp [updateStatus, orderPreSave_statusHistory, recordRevenue_statusHistory]⟩

/-- C2 counterexample: requesting packed on a pending order is not rejected
with InvalidTransition; the order comes back with status packed and the
corresponding audit entry. -/
theorem updateStatus_pending_packed_accepted :
    (updateStatus samplePendingOrder [] OrderStatus.packed 1 "direct").1.status
      = OrderStatus.packed ∧
    OrderStatus.packed ≠ OrderStatus.pending ∧
    (updateStatus samplePendingOrder [] OrderStatus.packed 1 "direct").1.statusHistory
      = [⟨OrderStatus.packed, 1, "direct"⟩] := by
  refine ⟨by rfl, by decide, by rfl⟩

/-- C6: the first delivered event on an order with unrecorded revenue sets
`recorded`, `grossRevenue = pricing.total`,
`netRevenue = pricing.total - deliveryFee` and
`profit = netRevenue - sum(lineTotal * 0.7)`; a delivered event on an order
whose revenue is already recorded leaves every revenue field unchanged. -/
theorem updateStatus_delivered_revenue (o : Order) (l : Ledger) (u : Nat) (n : String) :
    (o.revenue.recorded = false →
      (updateStatus o l OrderStatus.delivered u n).1.revenue =
        { recorded := true,
          grossRevenue := o.pricing.total,
          netRevenue := o.pricing.total - o.pricing.deliveryFee,
          profit := (o.pricing.total - o.pricing.deliveryFee)
            - (o.items.map (fun it => it.totalPrice * (7 / 10 : Rat))).sum }) ∧
    (o.revenue.recorded = true →
      (updateStatus o l OrderStatus.delivered u n).1.revenue = o.revenue) := by
  constructor
  · intro h
    unfold updateStatus recordRevenue orderPreSave
    simp [h]
  · intro h
    unfold updateStatus recordRevenue orderPreSave
    simp [h]

/-- Witness for C6, scenario C: delivering the sample order records gross
revenue 250, net revenue 200 and profit 60. -/
theorem updateStatus_delivered_revenue_witness :
    (updateStatus sampleOrderC [] OrderStatus.delivered 1 "").1.revenue =
      { recorded := true, grossRevenue := 250, netRevenue := 200, profit := 60 } := by
  have h := (updateStatus_delivered_revenue sampleOrderC [] 1 "").1 (by rfl)
  rw [h]
  norm_num [sampleOrderC]

/-- C5 counterexample: cancelling an order that is already confirmed (its
reserved units were deducted) still invokes release on the reservation
counters: product 1 held reservedStock 5 and after the cancellation it
holds 2, so the cancellation path did touch the reservation counters. -/
theorem cancel_after_confirmed_releases :
    findProduct ((updateStatus sampleOrderC5 [(1, sampleProductC5)]
        OrderStatus.cancelled 9 "").2) 1 =
      some { sampleProductC5 with reservedStock := 2 } ∧
    (2 : Int) ≠ 5 := by
  constructor
  · rfl
  · decide

theorem releaseReservedStock_eq (p : Product) (a : Int)
    (h0 : 0 ≤ p.reservedStock) (h1 : p.reservedStock ≤ p.stock) (ha : 0 ≤ a) :
    releaseReservedStock p a = { p with reservedStock := max 0 (p.reservedStock - a) } := by
  unfold releaseReservedStock productPreSave
  rw [if_neg (show ¬ (max 0 (p.reservedStock - a) > p.stock) from
    not_lt.mpr (max_le (by omega) (by omega)))]

/-- C5 amended: transitioning any order to cancelled invokes release for
its line unconditionally, whatever the current status (including orders
already confirmed, whose stock was deducted): the product of the line loses
`min(held, computed base units)` of `reservedStock` (clamped at zero) and
its `stock` field is not restored. -/
theorem updateStatus_cancelled_releases (o : Order) (l : Ledger) (u : Nat) (n : String)
    (it : OrderItem) (p : Product)
    (hitems : o.items = [it])
    (hfind : findProduct l it.productId = some p)
    (hinv : StockInv p)
    (hq : 0 ≤ orderItemBaseUnits p it) :
    (updateStatus o l OrderStatus.cancelled u n).1.status = OrderStatus.cancelled ∧
    findProduct ((updateStatus o l OrderStatus.cancelled u n).2) it.productId =
      some { p with reservedStock := max 0 (p.reservedStock - orderItemBaseUnits p it) } := by
  obtain ⟨h0, h1⟩ := hinv
  constructor
  · unfold updateStatus orderPreSave
    rfl
  · unfold updateStatus
    simp only
    unfold orderReleaseReservedStock
    rw [hitems]
    simp only [List.foldl_cons, List.foldl_nil, hfind]
    rw [releaseReservedStock_eq p _ h0 h1 hq]
    exact findProduct_setProduct_self l it.productId _ p hfind

/-- Witness for C5 amended, applied to the confirmed sample order: the
release is performed even though the order is already confirmed. -/
theorem updateStatus_cancelled_releases_witness :
    (updateStatus sampleOrderC5 [(1, sampleProductC5)] OrderStatus.cancelled 9 "note").1.status
        = OrderStatus.cancelled ∧
    findProduct ((updateStatus sampleOrderC5 [(1, sampleProductC5)]
        OrderStatus.cancelled 9 "note").2) 1 =
      some { sampleProductC5 with
        reservedStock := max 0 (sampleProductC5.reservedStock
          - orderItemBaseUnits sampleProductC5
              { productId := 1, quantity := 3, purchaseType := PurchaseType.package,
                pricePerItem := 1, totalPrice := 3, prescriptionRequired := false }) } := by
  exact updateStatus_cancelled_releases sampleOrderC5 [(1, sampleProductC5)] 9 "note"
    { productId := 1, quantity := 3, purchaseType := PurchaseType.package,
      pricePerItem := 1, totalPrice := 3, prescriptionRequired := false }
    sampleProductC5 (by rfl) (by rfl) (by decide) (by decide)

theorem deductStock_ok_eq (p : Product) (a : Int)
    (h1 : p.reservedStock ≤ p.stock) (ha : a ≤ p.reservedStock) :
    deductStock p a = .ok (deductedProduct p a) := by
  unfold deductStock productPreSave deductedProduct
  rw [if_neg (not_lt.mpr ha)]
  rw [if_neg (show ¬ (p.reservedStock - a > p.stock - a) from by omega)]

theorem deductStock_error_eq (p : Product) (a : Int) (h : p.reservedStock < a) :
    deductStock p a = .error ApiError.ReservationUnderrun := by
  unfold deductStock
  rw [if_pos h]

theorem confirmSale_cons (it : OrderItem) (rest : List OrderItem) (l : Ledger) :
    confirmSale (it :: rest) l =
      match findProduct l it.productId with
      | none => confirmSale rest l
      | some p =>
        match deductStock p (orderItemBaseUnits p it) with
        | .ok p2 => confirmSale rest (setProduct l it.productId p2)
        | .error e => (l, some e) := rfl

theorem confirmSale_fst_frame (items : List OrderItem) (l : Ledger) (pid : Nat)
    (h : pid ∉ items.map OrderItem.productId) :
    findProduct (confirmSale items l).1 pid = findProduct l pid := by
  induction items generalizing l with
  | nil => rfl
  | cons it rest ih =>
    have hne : pid ≠ it.productId := by
      intro he
      exact h (by simp [he])
    have hrest : pid ∉ rest.map OrderItem.productId := by
      intro hm
      exact h (by simp [hm])
    rw [confirmSale_cons]
    cases hf : findProduct l it.productId with
    | none => exact ih l hrest
    | some p =>
      dsimp only
      cases hd : deductStock p (orderItemBaseUnits p it) with
      | ok p2 =>
        dsimp only
        rw [ih _ hrest]
        exact findProduct_setProduct_ne l it.productId pid p2 hne
      | error e => rfl

theorem confirmSale_ok_spec (items : List OrderItem) (l : Ledger)
    (hnd : (items.map OrderItem.productId).Nodup)
    (hall : ∀ it ∈ items, ∃ p, findProduct l it.productId = some p ∧ StockInv p ∧
        orderItemBaseUnits p it ≤ p.reservedStock) :
    (confirmSale items l).2 = none ∧
    ∀ it ∈ items, ∀ p, findProduct l it.productId = some p →
      findProduct (confirmSale items l).1 it.productId =
        some (deductedProduct p (orderItemBaseUnits p it)) := by
  induction items generalizing l with
  | nil =>
    refine ⟨rfl, ?_⟩
    intro it hit
    cases hit
  | cons it0 rest ih =>
    obtain ⟨p0, hf0, hinv0, hcov0⟩ := hall it0 (List.mem_cons_self it0 rest)
    have hnd2 := List.nodup_cons.mp hnd
    have hnd0 : it0.productId ∉ rest.map OrderItem.productId := hnd2.1
    have hndrest : (rest.map OrderItem.productId).Nodup := hnd2.2
    have hrestne : ∀ it2 ∈ rest, it2.productId ≠ it0.productId := by
      intro it2 hit2 he
      exact hnd0 (he ▸ List.mem_map_of_mem OrderItem.productId hit2)
    rw [confirmSale_cons, hf0]
    dsimp only
    rw [deductStock_ok_eq p0 _ hinv0.2 hcov0]
    dsimp only
    have hall2 : ∀ it2 ∈ rest, ∃ p,
        findProduct (setProduct l it0.productId (deductedProduct p0 (orderItemBaseUnits p0 it0)))
          it2.productId = some p ∧
        StockInv p ∧ orderItemBaseUnits p it2 ≤ p.reservedStock := by
      intro it2 hit2
      obtain ⟨p2, hf2, hinv2, hcov2⟩ := hall it2 (List.mem_cons_of_mem it0 hit2)
      refine ⟨p2, ?_, hinv2, hcov2⟩
      rw [findProduct_setProduct_ne l it0.productId it2.productId _ (hrestne it2 hit2)]
      exact hf2
    obtain ⟨hnone, hrest⟩ := ih _ hndrest hall2
    refine ⟨hnone, ?_⟩
    intro it hit p hfp
    rcases List.mem_cons.mp hit with heq | hmem
    · subst heq
      have hpp : p = p0 := by
        rw [hf0] at hfp
        exact (Option.some.injEq _ _).mp hfp.symm
      subst hpp
      rw [confirmSale_fst_frame rest _ it.productId hnd0]
      exact findProduct_setProduct_self l it.productId _ p hf0
    · have hfp2 : findProduct
          (setProduct l it0.productId (deductedProduct p0 (orderItemBaseUnits p0 it0)))
          it.productId = some p := by
        rw [findProduct_setProduct_ne l it0.productId it.productId _ (hrestne it hmem)]
        exact hfp
      exact hrest it hmem p hfp2

theorem updateOrderStatus_confirmed_eq (o : Order) (l : Ledger) (u : Nat) (n : String) :
    updateOrderStatus o l OrderStatus.confirmed u n =
      (orderPreSave { o with
          status := OrderStatus.confirmed,
          statusHistory := o.statusHistory ++ [⟨OrderStatus.confirmed, u, n⟩] },
       (confirmSale o.items l).1, (confirmSale o.items l).2) := rfl

/-- C4 amended: transitioning an order to confirmed first persists the new
status and the audit entry, then deducts for each line the base-unit
requirement from both the stock and the reserved stock of the
product (exactly, when the products are distinct, present, satisfy the
ledger invariant and their reserve covers the requirement); when the first
product of the line has `reservedStock` below the requirement, the deduction
fails with ReservationUnderrun, but the transition is not rolled back: the
order keeps status confirmed and the appended history entry. -/
theorem updateOrderStatus_confirmed_spec (o : Order) (l : Ledger) (u : Nat) (n : String) :
    ((updateOrderStatus o l OrderStatus.confirmed u n).1.status = OrderStatus.confirmed ∧
     (updateOrderStatus o l OrderStatus.confirmed u n).1.statusHistory
        = o.statusHistory ++ [⟨OrderStatus.confirmed, u, n⟩]) ∧
    ((o.items.map OrderItem.productId).Nodup →
      (∀ it ∈ o.items, ∃ p, findProduct l it.productId = some p ∧ StockInv p ∧
          orderItemBaseUnits p it ≤ p.reservedStock) →
      (updateOrderStatus o l OrderStatus.confirmed u n).2.2 = none ∧
      ∀ it ∈ o.items, ∀ p, findProduct l it.productId = some p →
        findProduct (updateOrderStatus o l OrderStatus.confirmed u n).2.1 it.productId =
          some (deductedProduct p (orderItemBaseUnits p it))) ∧
    (∀ it rest p, o.items = it :: rest →
      findProduct l it.productId = some p →
      p.reservedStock < orderItemBaseUnits p it →
      (updateOrderStatus o l OrderStatus.confirmed u n).2.2
        = some ApiError.ReservationUnderrun) := by
  rw [updateOrderStatus_confirmed_eq]
  refine ⟨⟨rfl, rfl⟩, ?_, ?_⟩
  · intro hnd hall
    exact confirmSale_ok_spec o.items l hnd hall
  · intro it rest p hitems hfp hlt
    rw [hitems, confirmSale_cons, hfp]
    dsimp only
    rw [deductStock_error_eq p _ hlt]

/-- Witness for C4 amended: on a ledger where product 1 has stock 10 and
reservedStock 5, confirming the sample order deducts 3 from both counters
and reports no error. -/
theorem updateOrderStatus_confirmed_spec_witness :
    (updateOrderStatus sampleOrderC4 [(1, sampleProductC5)] OrderStatus.confirmed 1 "").2.2
      = none ∧
    findProduct
      (updateOrderStatus sampleOrderC4 [(1, sampleProductC5)] OrderStatus.confirmed 1 "").2.1 1 =
      some { sampleProductC5 with stock := 7, reservedStock := 2 } := by
  have h := (updateOrderStatus_confirmed_spec sampleOrderC4 [(1, sampleProductC5)] 1 "").2.1
    (by decide)
    (by
      intro it hit
      rcases List.mem_singleton.mp hit with rfl
      exact ⟨sampleProductC5, rfl, by decide, by decide⟩)
  refine ⟨h.1, ?_⟩
  have h2 := h.2 sampleItemC4 (List.mem_singleton.mpr rfl) sampleProductC5 rfl
  have h3 : sampleItemC4.productId = 1 := rfl
  rw [h3] at h2
  rw [h2]
  decide

/-- C4 counterexample: confirming a pending order whose product has no
reserved stock does fail with ReservationUnderrun, but the transition is
not aborted: the order comes back with status confirmed, not its previous
status pending. -/
theorem confirm_underrun_not_aborted :
    (updateOrderStatus sampleOrderC4 [(1, sampleProductA)] OrderStatus.confirmed 1 "").2.2
      = some ApiError.ReservationUnderrun ∧
    (updateOrderStatus sampleOrderC4 [(1, sampleProductA)] OrderStatus.confirmed 1 "").1.status
      = OrderStatus.confirmed ∧
    OrderStatus.confirmed ≠ sampleOrderC4.status := by
  exact ⟨rfl, rfl, by decide⟩

/-! Claims C7 and C8 about order creation from a session. -/

theorem validateLines_cons (l : Ledger) (ci : CartItem) (rest : List CartItem) :
    validateLines l (ci :: rest) =
      match findProduct l ci.productId with
      | none => .error .ProductUnavailable
      | some p =>
        if p.status ≠ ProductStatus.active then .error .ProductUnavailable
        else if availableStock p < orderLineStockNeeded p ci then .error .InsufficientStock
        else
          match validateLines l rest with
          | .error e => .error e
          | .ok items => .ok (cartLineToOrderItem p ci :: items) := rfl

theorem validateLines_ok_iff (l : Ledger) (items : List CartItem) :
    (∃ out, validateLines l items = .ok out) ↔
    (∀ ci ∈ items, ∃ p, findProduct l ci.productId = some p ∧
      p.status = ProductStatus.active ∧ orderLineStockNeeded p ci ≤ availableStock p) := by
  induction items with
  | nil =>
    constructor
    · intro _ ci hci
      cases hci
    · intro _
      exact ⟨[], rfl⟩
  | cons ci rest ih =>
    rw [validateLines_cons]
    cases hf : findProduct l ci.productId with
    | none =>
      dsimp only
      constructor
      · rintro ⟨out, hout⟩
        cases hout
      · intro hall
        obtain ⟨p, hp, _, _⟩ := hall ci (List.mem_cons_self ci rest)
        rw [hf] at hp
        cases hp
    | some p =>
      dsimp only
      by_cases hs : p.status = ProductStatus.active
      · rw [if_neg (not_not_intro hs)]
        by_cases hav : availableStock p < orderLineStockNeeded p ci
        · rw [if_pos hav]
          constructor
          · rintro ⟨out, hout⟩
            cases hout
          · intro hall
            obtain ⟨p2, hp2, _, hcov2⟩ := hall ci (List.mem_cons_self ci rest)
            rw [hf] at hp2
            injection hp2 with hpe
            subst hpe
            omega
        · rw [if_neg hav]
          cases hr : validateLines l rest with
          | error e =>
            dsimp only
            constructor
            · rintro ⟨out, hout⟩
              cases hout
            · intro hall
              obtain ⟨out, hout⟩ := ih.mpr
                (fun ci2 h2 => hall ci2 (List.mem_cons_of_mem ci h2))
              rw [hr] at hout
              cases hout
          | ok outs =>
            dsimp only
            constructor
            · intro _ ci2 hci2
              rcases List.mem_cons.mp hci2 with he | hm
              · subst he
                exact ⟨p, hf, hs, not_lt.mp hav⟩
              · exact (ih.mp ⟨outs, hr⟩) ci2 hm
            · intro _
              exact ⟨cartLineToOrderItem p ci :: outs, rfl⟩
      · rw [if_pos hs]
        constructor
        · rintro ⟨out, hout⟩
          cases hout
        · intro hall
          obtain ⟨p2, hp2, hs2, _⟩ := hall ci (List.mem_cons_self ci rest)
          rw [hf] at hp2
          injection hp2 with hpe
          subst hpe
          exact (hs hs2).elim

theorem orderLineStockNeeded_set_reserved (p : Product) (ci : CartItem) (x : Int) :
    orderLineStockNeeded p { ci with reservedStock := x } = orderLineStockNeeded p ci := rfl

theorem cartLineToOrderItem_set_reserved (p : Product) (ci : CartItem) (x : Int) :
    cartLineToOrderItem p { ci with reservedStock := x } = cartLineToOrderItem p ci := rfl

theorem validateLines_ignores_reservedStock (l : Ledger) (items : List CartItem)
    (f : CartItem → Int) :
    validateLines l (items.map (fun ci => { ci with reservedStock := f ci }))
      = validateLines l items := by
  induction items with
  | nil => rfl
  | cons ci rest ih =>
    rw [List.map_cons, validateLines_cons, validateLines_cons]
    dsimp only
    simp only [orderLineStockNeeded_set_reserved, cartLineToOrderItem_set_reserved, ih]

/-- C7 amended: the per-line check of order creation validates that the
product is active and that the recomputed base-unit requirement is covered
by the virtual `availableStock` (stock minus reservedStock, which counts
the own hold of the session as unavailable); it succeeds exactly under those
conditions and never consults the cached `reservedBaseUnits` of the session
(changing them in every line does not change the outcome), so no
hold-mismatch is ever detected. -/
theorem createOrder_line_check_spec :
    (∀ (l : Ledger) (items : List CartItem),
      (∃ out, validateLines l items = .ok out) ↔
      (∀ ci ∈ items, ∃ p, findProduct l ci.productId = some p ∧
        p.status = ProductStatus.active ∧ orderLineStockNeeded p ci ≤ availableStock p)) ∧
    (∀ (l : Ledger) (items : List CartItem) (f : CartItem → Int),
      validateLines l (items.map (fun ci => { ci with reservedStock := f ci }))
        = validateLines l items) :=
  ⟨validateLines_ok_iff, validateLines_ignores_reservedStock⟩

/-- C7 counterexample: a non-expired session whose single line holds
exactly its requirement (10 of 10) is rejected with insufficient stock,
because the check demands availableStock (0) to cover the requirement
again; and a session whose cached hold (999) cannot match its requirement
(5) passes without any consistency error. -/
theorem createOrder_ignores_session_holds :
    createOrder 0 sampleCartC7 [(1, sampleProductC7)] true 50
      = .error ApiError.InsufficientStock ∧
    (createOrder 0 sampleCartC7b [(2, sampleProductC7b)] true 50).isOk = true := by
  exact ⟨rfl, rfl⟩

/-- Witness for C7 amended: the fully covered line of the mismatch sample
passes validation, and rewriting every cached hold to 0 leaves the
validation outcome unchanged. -/
theorem createOrder_line_check_spec_witness :
    (∃ out, validateLines [(2, sampleProductC7b)] [sampleLineC7b] = .ok out) ∧
    validateLines [(2, sampleProductC7b)]
        ([sampleLineC7b].map (fun ci => { ci with reservedStock := (0 : Int) }))
      = validateLines [(2, sampleProductC7b)] [sampleLineC7b] := by
  constructor
  · refine (createOrder_line_check_spec.1 _ _).mpr ?_
    intro ci hci
    rcases List.mem_singleton.mp hci with rfl
    exact ⟨sampleProductC7b, rfl, rfl, by decide⟩
  · exact createOrder_line_check_spec.2 [(2, sampleProductC7b)] [sampleLineC7b] (fun _ => 0)

/-- C8 amended: successful order creation empties the items of the session but
leaves its status exactly as it was (it is never flipped to
converted_to_order anywhere in the code) and releases nothing: the ledger
comes back untouched, so every reservedStock is the same after checkout as
before it. -/
theorem createOrder_success_keeps_holds (now : Int) (c : Cart) (l : Ledger)
    (rx : Bool) (fee : Rat) (r : Order × Cart × Ledger)
    (h : createOrder now c l rx fee = .ok r) :
    r.2.1.status = c.status ∧ r.2.1.items = [] ∧ r.2.2 = l := by
  unfold createOrder at h
  split at h
  · cases h
  · split at h
    · cases h
    · cases hv : validateLines l c.items with
      | error e =>
        rw [hv] at h
        cases h
      | ok items =>
        simp only [hv] at h
        split at h
        · cases h
        · injection h with h2
          subst h2
          exact ⟨rfl, rfl, rfl⟩

/-- C8 counterexample: a successful checkout leaves the session status
active, not converted. -/
theorem createOrder_does_not_convert :
    ((createOrder 0 sampleCartC7b [(2, sampleProductC7b)] true 50).toOption.map
      (fun r => r.2.1.status)) = some CartStatus.active ∧
    CartStatus.active ≠ CartStatus.converted_to_order := by
  exact ⟨rfl, by decide⟩

/-- Witness for C8 amended at the concrete successful checkout. -/
theorem createOrder_success_keeps_holds_witness :
    (clearCart sampleCartC7b).status = sampleCartC7b.status ∧
    (clearCart sampleCartC7b).items = [] ∧
    ([(2, sampleProductC7b)] : Ledger) = [(2, sampleProductC7b)] := by
  exact createOrder_success_keeps_holds 0 sampleCartC7b [(2, sampleProductC7b)] true 50
    (sampleOrderFromC7b, clearCart sampleCartC7b, [(2, sampleProductC7b)]) (by rfl)

/-! Claim C9 about the reconciliation sweep. -/

theorem releaseCartItems_append (xs ys : List CartItem) (l : Ledger) :
    releaseCartItems (xs ++ ys) l = releaseCartItems ys (releaseCartItems xs l) := by
  unfold releaseCartItems
  exact List.foldl_append _ _ _ _

theorem releaseCartItems_cons (it : CartItem) (rest : List CartItem) (l : Ledger) :
    releaseCartItems (it :: rest) l =
      releaseCartItems rest
        (match findProduct l it.productId with
         | none => l
         | some p =>
           if (0 : Int) < it.reservedStock
           then setProduct l it.productId (releaseReservedStock p it.reservedStock)
           else l) := rfl

theorem heldSum_nil (pid : Nat) : heldSum [] pid = 0 := rfl

theorem heldSum_cons (it : CartItem) (rest : List CartItem) (pid : Nat) :
    heldSum (it :: rest) pid =
      (if it.productId = pid ∧ 0 < it.reservedStock then it.reservedStock else 0)
        + heldSum rest pid := by
  unfold heldSum
  by_cases h : it.productId = pid ∧ 0 < it.reservedStock
  · rw [if_pos h]
    simp [List.filter_cons, h]
  · rw [if_neg h]
    simp [List.filter_cons, h]

theorem heldSum_nonneg (items : List CartItem) (pid : Nat) : 0 ≤ heldSum items pid := by
  induction items with
  | nil => exact le_refl 0
  | cons it rest ih =>
    rw [heldSum_cons]
    by_cases h : it.productId = pid ∧ 0 < it.reservedStock
    · rw [if_pos h]
      obtain ⟨h1, h2⟩ := h
      omega
    · rw [if_neg h]
      omega

theorem releaseCartItems_lookup (items : List CartItem) (l : Ledger) (pid : Nat) (p : Product)
    (hf : findProduct l pid = some p) (h0 : 0 ≤ p.reservedStock)
    (h1 : p.reservedStock ≤ p.stock) (hcov : heldSum items pid ≤ p.reservedStock) :
    findProduct (releaseCartItems items l) pid =
      some { p with reservedStock := p.reservedStock - heldSum items pid } := by
  induction items generalizing l p with
  | nil =>
    rw [heldSum_nil, sub_zero]
    exact hf
  | cons it rest ih =>
    rw [releaseCartItems_cons]
    by_cases hpid : it.productId = pid
    · rw [hpid, hf]
      dsimp only
      by_cases hpos : (0 : Int) < it.reservedStock
      · rw [if_pos hpos]
        have hsum : heldSum (it :: rest) pid = it.reservedStock + heldSum rest pid := by
          rw [heldSum_cons, if_pos ⟨hpid, hpos⟩]
        rw [hsum] at hcov ⊢
        have hnn := heldSum_nonneg rest pid
        have hr : releaseReservedStock p it.reservedStock =
            { p with reservedStock := p.reservedStock - it.reservedStock } := by
          rw [releaseReservedStock_eq p it.reservedStock h0 h1 (le_of_lt hpos)]
          rw [max_eq_right (by omega)]
        rw [hr]
        have hf2 : findProduct
            (setProduct l pid { p with reservedStock := p.reservedStock - it.reservedStock })
            pid = some { p with reservedStock := p.reservedStock - it.reservedStock } :=
          findProduct_setProduct_self l pid _ p hf
        have h3 := ih _ _ hf2
          (show (0 : Int) ≤ p.reservedStock - it.reservedStock from by omega)
          (show p.reservedStock - it.reservedStock ≤ p.stock from by omega)
          (show heldSum rest pid ≤ p.reservedStock - it.reservedStock from by omega)
        have h4 : findProduct
            (releaseCartItems rest
              (setProduct l pid { p with reservedStock := p.reservedStock - it.reservedStock }))
            pid = some { p with
              reservedStock := (p.reservedStock - it.reservedStock) - heldSum rest pid } := h3
        rw [h4]
        have h5 : (p.reservedStock - it.reservedStock) - heldSum rest pid
            = p.reservedStock - (it.reservedStock + heldSum rest pid) := by ring
        rw [h5]
      · rw [if_neg hpos]
        have hsum : heldSum (it :: rest) pid = heldSum rest pid := by
          rw [heldSum_cons, if_neg (fun hc => hpos hc.2)]
          ring
        rw [hsum] at hcov ⊢
        exact ih l p hf h0 h1 hcov
    · have hsum : heldSum (it :: rest) pid = heldSum rest pid := by
        rw [heldSum_cons, if_neg (fun hc => hpid hc.1)]
        ring
      rw [hsum] at hcov ⊢
      cases hfq : findProduct l it.productId with
      | none =>
        dsimp only
        exact ih l p hf h0 h1 hcov
      | some q =>
        dsimp only
        by_cases hpos : (0 : Int) < it.reservedStock
        · rw [if_pos hpos]
          have hf2 : findProduct
              (setProduct l it.productId (releaseReservedStock q it.reservedStock)) pid
              = some p := by
            rw [findProduct_setProduct_ne l it.productId pid _ (fun he => hpid he.symm)]
            exact hf
          exact ih _ p hf2 h0 h1 hcov
        · rw [if_neg hpos]
          exact ih l p hf h0 h1 hcov

theorem selectedItems_cons_pos (now : Int) (c : Cart) (cs : List Cart)
    (h : sweepSelected now c = true) :
    selectedItems now (c :: cs) = c.items ++ selectedItems now cs := by
  unfold selectedItems
  simp [List.filter_cons, h]

theorem selectedItems_cons_neg (now : Int) (c : Cart) (cs : List Cart)
    (h : sweepSelected now c = false) :
    selectedItems now (c :: cs) = selectedItems now cs := by
  unfold selectedItems
  simp [List.filter_cons, h]

theorem cleanupExpiredCarts_shape (now : Int) (carts : List Cart) (l : Ledger) :
    (cleanupExpiredCarts now carts l).1 =
      carts.map (fun c =>
        if sweepSelected now c then { c with status := CartStatus.expired } else c) ∧
    (cleanupExpiredCarts now carts l).2.2 = (carts.filter (sweepSelected now)).length ∧
    (cleanupExpiredCarts now carts l).2.1 = releaseCartItems (selectedItems now carts) l := by
  induction carts generalizing l with
  | nil => exact ⟨rfl, rfl, rfl⟩
  | cons c cs ih =>
    by_cases hsel : sweepSelected now c = true
    · unfold cleanupExpiredCarts
      rw [if_pos hsel]
      dsimp only
      obtain ⟨i1, i2, i3⟩ := ih (releaseCartItems c.items l)
      refine ⟨?_, ?_, ?_⟩
      · rw [List.map_cons, if_pos hsel, i1]
      · rw [List.filter_cons, if_pos hsel, List.length_cons, i2]
      · rw [i3, selectedItems_cons_pos now c cs hsel, releaseCartItems_append]
    · rw [Bool.not_eq_true] at hsel
      unfold cleanupExpiredCarts
      rw [if_neg (by rw [hsel]; exact Bool.false_ne_true)]
      dsimp only
      obtain ⟨i1, i2, i3⟩ := ih l
      refine ⟨?_, ?_, ?_⟩
      · rw [List.map_cons, if_neg (by rw [hsel]; exact Bool.false_ne_true), i1]
      · rw [List.filter_cons, if_neg (by rw [hsel]; exact Bool.false_ne_true), i2]
      · rw [i3, selectedItems_cons_neg now c cs hsel]

/-- C9: a sweep run processes exactly the sessions that are active and past
their expiry: every selected session is returned with status expired (and
its items intact), every other session is unchanged, the returned count is
the number of selected sessions, and the reservedStock of each product drops by
exactly the total positive cached holds of the lines of selected sessions
that reference it (given the ledger invariant and that the reserve covers
those holds). -/
theorem cleanupExpiredCarts_spec (now : Int) (carts : List Cart) (l : Ledger) :
    (cleanupExpiredCarts now carts l).1 =
      carts.map (fun c =>
        if sweepSelected now c then { c with status := CartStatus.expired } else c) ∧
    (cleanupExpiredCarts now carts l).2.2 = (carts.filter (sweepSelected now)).length ∧
    (∀ pid p, findProduct l pid = some p → StockInv p →
      heldSum (selectedItems now carts) pid ≤ p.reservedStock →
      findProduct (cleanupExpiredCarts now carts l).2.1 pid =
        some { p with
          reservedStock := p.reservedStock - heldSum (selectedItems now carts) pid }) := by
  obtain ⟨s1, s2, s3⟩ := cleanupExpiredCarts_shape now carts l
  refine ⟨s1, s2, ?_⟩
  intro pid p hf hinv hcov
  rw [s3]
  exact releaseCartItems_lookup _ l pid p hf hinv.1 hinv.2 hcov

/-- Witness for C9, scenario B: sweeping at instant 20 reconciles exactly
one session and product 1 (stock 10, reservedStock 5) loses its 5 held
units. -/
theorem cleanupExpiredCarts_spec_witness :
    (cleanupExpiredCarts 20 [sampleCartB] [(1, sampleProductC5)]).2.2 = 1 ∧
    findProduct (cleanupExpiredCarts 20 [sampleCartB] [(1, sampleProductC5)]).2.1 1 =
      some { sampleProductC5 with
        reservedStock := sampleProductC5.reservedStock
          - heldSum (selectedItems 20 [sampleCartB]) 1 } ∧
    heldSum (selectedItems 20 [sampleCartB]) 1 = 5 := by
  have h := cleanupExpiredCarts_spec 20 [sampleCartB] [(1, sampleProductC5)]
  refine ⟨?_, ?_, by decide⟩
  · rw [h.2.1]
    rfl
  · exact h.2.2 1 sampleProductC5 rfl (by decide) (by decide)

/-! Claim C3 about merging a line into the cart. -/

theorem reserveStock_ok_eq (p : Product) (a : Int) (ha : a ≤ p.stock - p.reservedStock) :
    reserveStock p a = .ok { p with reservedStock := p.reservedStock + a } := by
  unfold reserveStock availableStock productPreSave
  rw [if_neg (not_lt.mpr (le_trans ha (le_max_right 0 _)))]
  rw [if_neg (show ¬ (p.reservedStock + a > p.stock) from by omega)]

theorem cartStockNeeded_set_reserved (p : Product) (x : Int) (pt : PurchaseType) (q : Int) :
    cartStockNeeded { p with reservedStock := x } pt q = cartStockNeeded p pt q := rfl

/-- C3 amended: when addToCart merges into an existing line for the same
product and granularity, the quantity of the line is merged and its cached hold
replaced by the requirement of the new total, but the ledger reservedStock
grows by the requirement of the added quantity alone
(`cartStockNeeded p pt q`), not by the difference between the new total
requirement and the previous hold of the line; the two agree for package
purchases but can differ under the unit conversion, double counting part of
the hold. -/
theorem addToCart_merge_spec (now : Int) (c : Cart) (l : Ledger) (pid : Nat)
    (q : Int) (pt : PurchaseType) (ppi : Rat) (p : Product) (i : Nat) (old : CartItem)
    (hfind : findProduct l pid = some p)
    (hact : p.status = ProductStatus.active)
    (hq1 : ¬ q < 1)
    (hmin : ¬ q < p.minOrderQuantity)
    (hmax : ¬ maxQtyExceeded p.maxOrderQuantity q)
    (hunit1 : ¬ (pt = PurchaseType.unit ∧ isTabletOrCapsule p = false))
    (hunit2 : ¬ (pt = PurchaseType.unit ∧ p.allowUnitSale = false))
    (hstock : ¬ (p.stock - p.reservedStock < cartStockNeeded p pt q))
    (hidx : c.items.findIdx?
      (fun it => decide (it.productId = pid ∧ it.purchaseType = pt)) = some i)
    (hold : c.items[i]? = some old) :
    ∃ c2, addToCart now c l pid q pt ppi =
        .ok (c2, setProduct l pid
          { p with reservedStock := p.reservedStock + cartStockNeeded p pt q }) ∧
      findProduct (setProduct l pid
          { p with reservedStock := p.reservedStock + cartStockNeeded p pt q }) pid
        = some { p with reservedStock := p.reservedStock + cartStockNeeded p pt q } ∧
      c2.items[i]? = some { old with
        quantity := old.quantity + q,
        totalPrice := ((old.quantity + q : Int) : Rat) * ppi,
        reservedStock := cartStockNeeded p pt (old.quantity + q) } ∧
      c2.status = c.status ∧
      c2.expiresAt = now + SESSION_TTL_MS := by
  have hn : cartStockNeeded p pt q ≤ p.stock - p.reservedStock := not_lt.mp hstock
  unfold addToCart
  rw [if_neg hq1, hfind]
  dsimp only
  rw [if_neg (not_not_intro hact), if_neg hmin, if_neg hmax, if_neg hunit1, if_neg hunit2,
      if_neg hstock, reserveStock_ok_eq p _ hn]
  dsimp only
  refine ⟨_, rfl, findProduct_setProduct_self l pid _ p hfind, ?_, ?_, ?_⟩
  · unfold cartAddItem
    rw [hidx]
    dsimp only
    rw [hold]
    dsimp only
    show (c.items.set i _)[i]? = _
    have hlen : i < c.items.length := by
      rcases List.getElem?_eq_some.mp hold with ⟨hl, _⟩
      exact hl
    rw [List.getElem?_set_eq_of_lt _ hlen]
    rw [cartStockNeeded_set_reserved]
  · unfold cartAddItem
    rw [hidx]
    dsimp only
    rw [hold]
    rfl
  · unfold cartAddItem
    rw [hidx]
    dsimp only
    rw [hold]
    rfl

/-- C3 counterexample: adding 5 more tablets to the line of 5 (10 per
strip) reserves 1 extra strip in the ledger (reservedStock goes 1 to 2),
while the cached hold of the merged line stays at 1 (ceil(10/10)); the ledger
grew by 1 but the new total requirement minus the previous hold is 0, so
the reservation attributable to the session (2) no longer matches the sum
of its line holds (1). -/
theorem addToCart_merge_leaks :
    ((addToCart 0 sampleCartC3 [(1, sampleProductC3)] 1 5 PurchaseType.unit 1).toOption.map
      (fun r => ((findProduct r.2 1).map Product.reservedStock,
                 r.1.items.map CartItem.reservedStock)))
      = some (some 2, [1]) ∧
    ((2 : Int) - 1) ≠ (1 - 1) := by
  exact ⟨rfl, by decide⟩

/-- Witness for C3 amended at the counterexample input: the merge succeeds,
the ledger hold for product 1 becomes 1 + cartStockNeeded(5) and the merged
hold of the line becomes cartStockNeeded(10). -/
theorem addToCart_merge_spec_witness :
    ∃ c2, addToCart 0 sampleCartC3 [(1, sampleProductC3)] 1 5 PurchaseType.unit 1 =
        .ok (c2, setProduct [(1, sampleProductC3)] 1 sampleProductC3r) ∧
      findProduct (setProduct [(1, sampleProductC3)] 1 sampleProductC3r) 1
        = some sampleProductC3r ∧
      c2.items[0]? = some { sampleLineC3 with
        quantity := sampleLineC3.quantity + 5,
        totalPrice := ((sampleLineC3.quantity + 5 : Int) : Rat) * 1,
        reservedStock := cartStockNeeded sampleProductC3 PurchaseType.unit
          (sampleLineC3.quantity + 5) } ∧
      c2.status = sampleCartC3.status ∧
      c2.expiresAt = 0 + SESSION_TTL_MS := by
  exact addToCart_merge_spec 0 sampleCartC3 [(1, sampleProductC3)] 1 5 PurchaseType.unit 1
    sampleProductC3 0 sampleLineC3 rfl rfl (by decide) (by decide) (by decide) (by decide)
    (by decide) (by decide) rfl rfl

end Pharma
